import Mathlib

/-!
Verification development for the chat front-end in `src/script.js`.
The request lifecycle controller (`sendMessage`, lines 69-176) is embedded
as a pure function from the pre-call UI state, the credential state, and
the outcome of the single `fetch` call, to a trace of observable effects
plus the final UI state.  The save-key button handler (lines 28-58) is
embedded as `saveTokenClick`.
-/

namespace ChatbotAI

/-- One element of `candidates[0].content.parts`; its `text` field may be absent. -/
structure ContentPart where
  text : Option String
deriving DecidableEq

/-- The `content` field of a candidate; `parts` may be absent or not an array. -/
structure CandContent where
  parts : Option (List ContentPart)
deriving DecidableEq

/-- One element of the `candidates` array of a response body. -/
structure Candidate where
  content : Option CandContent
deriving DecidableEq

/-- The `error` object of a failure response body; `message` may be absent. -/
structure ErrorObj where
  message : Option String
deriving DecidableEq

/-- A parsed JSON response body, restricted to the fields `script.js` inspects. -/
structure ApiBody where
  candidates : Option (List Candidate)
  error : Option ErrorObj
deriving DecidableEq

/-- Outcome of the `fetch` call: either a response with an HTTP status and a
body (`none` models a body that fails JSON parsing, line 123-125), or a
rejection carrying the JS error name and message.  The 15000 ms timer firing
aborts the request, which surfaces as a rejection named `AbortError`
(lines 85-86, 162). -/
inductive FetchOutcome
  | response (status : Nat) (body : Option ApiBody)
  | networkError (name : String) (msg : String)
deriving DecidableEq

/-- The entry-field and send-button state the controller reads and writes. -/
structure UIState where
  inputValue : String
  inputDisabled : Bool
  sendDisabled : Bool
deriving DecidableEq

/-- Credential state: `window.GEMINI_API_KEY` (in-memory cache) and the
`localStorage` entry `gemini_api_key` (persistent store). -/
structure CredState where
  windowKey : Option String
  storedKey : Option String
deriving DecidableEq

/-- Observable effects of one `sendMessage` run, in program order. -/
inductive Ev
  | userMsg (t : String)
  | aiMsg (t : String)
  | placeholderAdded
  | placeholderRemoved
  | timerStart
  | timerClear
  | fetchCall (key : String) (payload : String)
  | consoleError (msg : String)
  | focus
deriving DecidableEq

/-- Result of a `sendMessage` run: the effect trace and the final UI state. -/
structure SendResult where
  events : List Ev
  ui : UIState
deriving DecidableEq

/-- Drop leading whitespace characters from a character list. -/
def dropWS : List Char → List Char
  | [] => []
  | c :: cs => if c.isWhitespace then dropWS cs else c :: cs

/-- The JS `String.prototype.trim`: strip leading and trailing whitespace. -/
def jsTrim (s : String) : String :=
  ⟨(dropWS (dropWS s.data.reverse).reverse)⟩

/-- JS truthiness of an optional string: `undefined`, `null` and the empty
string are falsy. -/
def truthyStr : Option String → Option String
  | some s => if s = "" then none else some s
  | none => none

/-- Line 89 and line 163:
`window.GEMINI_API_KEY || localStorage.getItem(ter)` followed by a truthiness
test; the in-memory value is consulted first, the stored value second. -/
def readKey (c : CredState) : Option String :=
  match truthyStr c.windowKey with
  | some k => some k
  | none => truthyStr c.storedKey

/-- `response.ok`: the HTTP status is in the 200-299 range. -/
def responseOk (status : Nat) : Bool :=
  200 ≤ status && status ≤ 299

/-- `JSON.stringify(data.error)` for the error objects the model can hold
(line 130, fallback when `error.message` is falsy). -/
def stringifyError (e : ErrorObj) : String :=
  match e.message with
  | some m => "\x7b\"message\":\"" ++ m ++ "\"\x7d"
  | none => "\x7b\x7d"

/-- Lines 128-132: the message of the `Error` thrown when the HTTP status is a
failure, preferring an embedded `error.message`, then `JSON.stringify` of the
error object, then a generic status-code message. -/
def classifyHttpError (status : Nat) (data : ApiBody) : String :=
  let apiErr : Option String :=
    match data.error with
    | some e =>
        match truthyStr e.message with
        | some m => some m
        | none => some (stringifyError e)
    | none => none
  match apiErr with
  | some a => "API error: " ++ a
  | none => "HTTP " ++ toString status

/-- Line 95: the fixed instructional message on the missing-credential path. -/
def missingKeyMsg : String :=
  "Gemini API key is required. Please enter it and click \"Save Key\"."

/-- Line 151: the fixed message rendered when reply extraction is empty. -/
def emptyReplyMsg : String :=
  "Sorry, I couldn\x27t generate a response. Please try again."

/-- Line 165: the timeout wording. -/
def timeoutMsgBase : String :=
  "The request timed out. Please try again."

/-- Line 166: the wording for every non-timeout failure. -/
def genericErrMsgBase : String :=
  "An error occurred while contacting the Gemini service."

/-- Line 163: the hint text appended when no credential is configured. -/
def tipText : String :=
  " Tip: Save your Gemini API key to proceed."

/-- Line 163: the hint is empty exactly when a credential reads as configured. -/
def credHint (c : CredState) : String :=
  if (readKey c).isSome then "" else tipText

/-- Lines 156-168, the `.catch` handler: remove the placeholder, log the error,
then render the failure message, choosing timeout wording exactly when the
error name is `AbortError`. -/
def catchEvents (name errMsg : String) (credAtCatch : CredState) : List Ev :=
  let hint := credHint credAtCatch
  let m := if name = "AbortError" then timeoutMsgBase ++ hint
           else genericErrMsgBase ++ hint
  [Ev.placeholderRemoved, Ev.consoleError errMsg, Ev.aiMsg m]

/-- Lines 142-149: reply extraction — concatenate the `text` of every part of
the first candidate content (missing `text` contributes the empty string),
then trim. -/
def extractReply (data : ApiBody) : String :=
  match data.candidates with
  | some (cand :: _) =>
      match cand.content with
      | some c =>
          match c.parts with
          | some parts => jsTrim (String.join (parts.map (fun p => p.text.getD "")))
          | none => ""
      | none => ""
  | _ => ""

/-- Lines 136-154, the success handler: remove the placeholder, then render the
extracted reply, or the fixed empty-reply message when extraction is empty. -/
def successEvents (data : ApiBody) : List Ev :=
  let reply := extractReply data
  [Ev.placeholderRemoved,
   Ev.aiMsg (if reply = "" then emptyReplyMsg else reply)]

/-- Lines 120-168: the promise chain attached to `fetch`.  A rejection goes to
the catch handler; a response is parsed (parse failure throws a generic
`Error`); a parsed body with a failure status throws the classified error;
otherwise the success handler runs.  `credAtCatch` is the credential state at
the time the catch handler re-reads it (line 163). -/
def fetchHandlerEvents (f : FetchOutcome) (credAtCatch : CredState) : List Ev :=
  match f with
  | .networkError name msg => catchEvents name msg credAtCatch
  | .response status body =>
      match body with
      | none =>
          catchEvents "Error"
            ("Invalid JSON from API (" ++ toString status ++ ")") credAtCatch
      | some data =>
          if responseOk status then successEvents data
          else catchEvents "Error" (classifyHttpError status data) credAtCatch

/-- Lines 69-176: `sendMessage`.  A locked gate or an input trimming to empty
is a silent no-op.  Otherwise the user message is rendered, the input cleared,
the gate locked, the placeholder added, the 15000 ms timer started, and the
credential read.  With no credential the placeholder is removed, the fixed
instructional message rendered, and the gate unlocked — without issuing a
fetch and without clearing the timer.  With a credential the fetch is issued,
its handlers run, and the `finally` block clears the timer, unlocks the gate
and restores focus. -/
def sendMessage (ui : UIState) (cred credAtCatch : CredState)
    (f : FetchOutcome) : SendResult :=
  if ui.sendDisabled then ⟨[], ui⟩
  else
    let message := jsTrim ui.inputValue
    if message = "" then ⟨[], ui⟩
    else
      let pre : List Ev := [Ev.userMsg message, Ev.placeholderAdded, Ev.timerStart]
      match readKey cred with
      | none =>
          ⟨pre ++ [Ev.placeholderRemoved, Ev.aiMsg missingKeyMsg, Ev.focus],
           ⟨"", false, false⟩⟩
      | some apiKey =>
          ⟨pre ++ [Ev.fetchCall apiKey message]
               ++ fetchHandlerEvents f credAtCatch
               ++ [Ev.timerClear, Ev.focus],
           ⟨"", false, false⟩⟩

/-- The assistant-rendered messages of a trace, in order. -/
def aiMessages (evs : List Ev) : List String :=
  evs.filterMap (fun e => match e with | .aiMsg t => some t | _ => none)

/-- The credentials used by network calls in a trace, in order. -/
def fetchKeys (evs : List Ev) : List String :=
  evs.filterMap (fun e => match e with | .fetchCall k _ => some k | _ => none)

/-- The console-logged error messages of a trace, in order. -/
def loggedErrors (evs : List Ev) : List String :=
  evs.filterMap (fun e => match e with | .consoleError m => some m | _ => none)

/-- The subtrace of placeholder lifecycle events and assistant messages. -/
def phAndAi (evs : List Ev) : List Ev :=
  evs.filter (fun e => match e with
    | .placeholderAdded => true
    | .placeholderRemoved => true
    | .aiMsg _ => true
    | _ => false)

/-- Whether character list `sub` occurs at the head of `s`. -/
def charsStartWith : List Char → List Char → Bool
  | _, [] => true
  | [], _ :: _ => false
  | c :: cs, d :: ds => c = d && charsStartWith cs ds

/-- Whether character list `sub` occurs anywhere inside `s`. -/
def charsContain (sub : List Char) : List Char → Bool
  | [] => charsStartWith [] sub
  | c :: cs => charsStartWith (c :: cs) sub || charsContain sub cs

/-- Whether `sub` occurs as a substring of `s`. -/
def strContains (s sub : String) : Bool :=
  charsContain sub.data s.data

/-- Extraction following the spec wording: concatenating all textual fragments
of the first candidate content parts, trimmed. -/
def specExtract (data : ApiBody) : String :=
  match data.candidates with
  | some (cand :: _) =>
      let parts := (cand.content.map (fun c => c.parts.getD [])).getD []
      jsTrim (String.join (parts.map (fun p => p.text.getD "")))
  | _ => ""

/-- The state of the key input widget: its value, the `data-masked` attribute,
and the save-button label. -/
structure KeyUIState where
  tokenValue : String
  dataMasked : Bool
  btnText : String
deriving DecidableEq

/-- State touched by the save-key click handler. -/
structure SaveState where
  keyUI : KeyUIState
  stored : Option String
  windowKey : Option String
deriving DecidableEq

/-- Lines 28-58: the save-key button click handler, before the delayed
button-label reset fires.  Empty input clears the credential; a masked
placeholder value resubmitted unchanged only flashes the label; otherwise the
trimmed value is persisted, cached, and masked. -/
def saveTokenClick (s : SaveState) : SaveState :=
  let raw := jsTrim s.keyUI.tokenValue
  if raw = "" then
    { keyUI := ⟨"", false, "Key Cleared"⟩, stored := none, windowKey := none }
  else if s.keyUI.dataMasked = true ∧ raw = "********" then
    { s with keyUI := { s.keyUI with btnText := "Key Saved" } }
  else
    { keyUI := ⟨"********", true, "Saved"⟩, stored := some raw, windowKey := some raw }

/-- The concrete pre-submit UI state used by scenario theorems. -/
def uiHello : UIState := ⟨"Hello", false, false⟩

/-- A credential state with only the in-memory cache set. -/
def credWin (k : String) : CredState := ⟨some k, none⟩

/-- No credential configured anywhere. -/
def noCred : CredState := ⟨none, none⟩

/-! ### Helper lemmas on the shape of the trace -/

/-- With the gate unlocked, a nonblank input and a readable credential, the
trace of `sendMessage` is the fetch-path trace. -/
theorem sendMessage_eq_of_key (ui : UIState) (cred cc : CredState)
    (f : FetchOutcome) (k : String)
    (hgate : ui.sendDisabled = false) (hmsg : jsTrim ui.inputValue ≠ "")
    (hk : readKey cred = some k) :
    sendMessage ui cred cc f
      = ⟨[Ev.userMsg (jsTrim ui.inputValue), Ev.placeholderAdded, Ev.timerStart]
          ++ [Ev.fetchCall k (jsTrim ui.inputValue)]
          ++ fetchHandlerEvents f cc ++ [Ev.timerClear, Ev.focus],
         ⟨"", false, false⟩⟩ := by
  simp [sendMessage, hgate, hmsg, hk]

/-- With the gate unlocked, a nonblank input and no readable credential, the
trace of `sendMessage` is the missing-credential trace. -/
theorem sendMessage_eq_of_nokey (ui : UIState) (cred cc : CredState)
    (f : FetchOutcome)
    (hgate : ui.sendDisabled = false) (hmsg : jsTrim ui.inputValue ≠ "")
    (hk : readKey cred = none) :
    sendMessage ui cred cc f
      = ⟨[Ev.userMsg (jsTrim ui.inputValue), Ev.placeholderAdded, Ev.timerStart]
          ++ [Ev.placeholderRemoved, Ev.aiMsg missingKeyMsg, Ev.focus],
         ⟨"", false, false⟩⟩ := by
  simp [sendMessage, hgate, hmsg, hk]

/-- The assistant messages of a concatenated trace. -/
theorem aiMessages_append (a b : List Ev) :
    aiMessages (a ++ b) = aiMessages a ++ aiMessages b := by
  simp [aiMessages]

/-- The used credentials of a concatenated trace. -/
theorem fetchKeys_append (a b : List Ev) :
    fetchKeys (a ++ b) = fetchKeys a ++ fetchKeys b := by
  simp [fetchKeys]

/-- The logged errors of a concatenated trace. -/
theorem loggedErrors_append (a b : List Ev) :
    loggedErrors (a ++ b) = loggedErrors a ++ loggedErrors b := by
  simp [loggedErrors]

/-- The placeholder-and-assistant subtrace of a concatenated trace. -/
theorem phAndAi_append (a b : List Ev) :
    phAndAi (a ++ b) = phAndAi a ++ phAndAi b := by
  simp [phAndAi]

/-- The fetch handlers issue no further network call. -/
theorem fetchKeys_handler (f : FetchOutcome) (cc : CredState) :
    fetchKeys (fetchHandlerEvents f cc) = [] := by
  cases f with
  | networkError n m => rfl
  | response s b =>
      cases b with
      | none => rfl
      | some d =>
          cases h : responseOk s <;>
            simp [fetchHandlerEvents, h, fetchKeys, successEvents, catchEvents]

/-- The catch handler renders exactly one assistant message: timeout wording
for an abort, generic wording otherwise, plus the credential hint. -/
theorem aiMessages_catch (name errMsg : String) (cc : CredState) :
    aiMessages (catchEvents name errMsg cc)
      = [if name = "AbortError" then timeoutMsgBase ++ credHint cc
         else genericErrMsgBase ++ credHint cc] := rfl

/-- The catch handler logs exactly the caught error message. -/
theorem loggedErrors_catch (name errMsg : String) (cc : CredState) :
    loggedErrors (catchEvents name errMsg cc) = [errMsg] := rfl

/-- Every fetch handler path removes the placeholder once and then renders one
assistant message. -/
theorem phAndAi_handler (f : FetchOutcome) (cc : CredState) :
    ∃ t, phAndAi (fetchHandlerEvents f cc)
      = [Ev.placeholderRemoved, Ev.aiMsg t] := by
  cases f with
  | networkError n m => exact ⟨_, rfl⟩
  | response s b =>
      cases b with
      | none => exact ⟨_, rfl⟩
      | some d =>
          cases h : responseOk s with
          | false =>
              exact ⟨genericErrMsgBase ++ credHint cc,
                by simp [fetchHandlerEvents, h, phAndAi, catchEvents]⟩
          | true =>
              exact ⟨if extractReply d = "" then emptyReplyMsg else extractReply d,
                by simp [fetchHandlerEvents, h, phAndAi, successEvents]⟩

/-! ### Claim theorems -/

/-- Claim C1, counterexample: with a credential present and an HTTP 429
response whose body embeds the message "quota exceeded", the rendered
assistant message is the fixed generic failure text, which does not contain
the embedded message — contradicting the claim as stated. -/
theorem c1_counterexample :
    aiMessages (sendMessage uiHello (credWin "k") (credWin "k")
      (FetchOutcome.response 429 (some ⟨none, some ⟨some "quota exceeded"⟩⟩))).events
      = [genericErrMsgBase]
    ∧ strContains genericErrMsgBase "quota exceeded" = false := by decide

/-- Claim C1 (amended): on an HTTP failure status with a parseable body that
embeds a nonempty error message, the classification carried by the thrown and
console-logged error contains the embedded message ("API error: ..."), while
the assistant message actually rendered to the user is the generic failure
text plus the credential hint, and does not depend on the embedded message. -/
theorem c1_amended_embedded_message_logged_not_rendered
    (status : Nat) (m : String) (cc : CredState)
    (hm : m ≠ "") (hst : responseOk status = false) :
    loggedErrors (sendMessage uiHello (credWin "k") cc
        (FetchOutcome.response status (some ⟨none, some ⟨some m⟩⟩))).events
      = ["API error: " ++ m]
    ∧ aiMessages (sendMessage uiHello (credWin "k") cc
        (FetchOutcome.response status (some ⟨none, some ⟨some m⟩⟩))).events
      = [genericErrMsgBase ++ credHint cc] := by
  have hhandler : fetchHandlerEvents
      (FetchOutcome.response status (some ⟨none, some ⟨some m⟩⟩)) cc
      = catchEvents "Error" ("API error: " ++ m) cc := by
    simp [fetchHandlerEvents, hst, classifyHttpError, truthyStr, hm]
  rw [sendMessage_eq_of_key uiHello (credWin "k") cc _ "k" rfl (by decide) rfl,
    hhandler]
  constructor
  · simp [loggedErrors, catchEvents]
  · simp [aiMessages, catchEvents]

/-- Claim C1, amended-theorem witness at status 429 and message
"quota exceeded". -/
theorem c1_amended_witness :
    loggedErrors (sendMessage uiHello (credWin "k") (credWin "k")
        (FetchOutcome.response 429 (some ⟨none, some ⟨some "quota exceeded"⟩⟩))).events
      = ["API error: " ++ "quota exceeded"]
    ∧ aiMessages (sendMessage uiHello (credWin "k") (credWin "k")
        (FetchOutcome.response 429 (some ⟨none, some ⟨some "quota exceeded"⟩⟩))).events
      = [genericErrMsgBase ++ credHint (credWin "k")] :=
  c1_amended_embedded_message_logged_not_rendered 429 "quota exceeded"
    (credWin "k") (by decide) (by decide)

/-- Claim C2, counterexample: on the missing-credential path the 15000 ms
timer is started but the trace contains no timer-clear effect, contradicting
the claim that every timer-starting path clears the timer in finalization. -/
theorem c2_counterexample :
    Ev.timerStart ∈ (sendMessage uiHello noCred noCred
        (FetchOutcome.response 200 (some ⟨some [], none⟩))).events
    ∧ Ev.timerClear ∉ (sendMessage uiHello noCred noCred
        (FetchOutcome.response 200 (some ⟨some [], none⟩))).events := by decide

/-- Claim C2 (amended): on every path that issues the network call — success,
soft-empty-success and failure — finalization clears the timer; the
missing-credential path starts the timer but returns without clearing it. -/
theorem c2_amended_timer_cleared_on_fetch_paths
    (ui : UIState) (cred cc : CredState) (f : FetchOutcome) (k : String)
    (hgate : ui.sendDisabled = false) (hmsg : jsTrim ui.inputValue ≠ "")
    (hk : readKey cred = some k) :
    Ev.timerStart ∈ (sendMessage ui cred cc f).events
    ∧ Ev.timerClear ∈ (sendMessage ui cred cc f).events := by
  rw [sendMessage_eq_of_key ui cred cc f k hgate hmsg hk]
  simp

/-- Claim C2, amended-theorem witness on a concrete success run. -/
theorem c2_amended_witness :
    Ev.timerStart ∈ (sendMessage uiHello (credWin "k") (credWin "k")
        (FetchOutcome.response 200 (some ⟨some [], none⟩))).events
    ∧ Ev.timerClear ∈ (sendMessage uiHello (credWin "k") (credWin "k")
        (FetchOutcome.response 200 (some ⟨some [], none⟩))).events :=
  c2_amended_timer_cleared_on_fetch_paths uiHello (credWin "k") (credWin "k")
    (FetchOutcome.response 200 (some ⟨some [], none⟩)) "k"
    rfl (by decide) rfl

/-- Claim C3, counterexample: with the in-memory cache holding "WINKEY" and
the persistent store holding "STOREKEY", the network call uses "WINKEY" — the
cached value, not the stored one — contradicting the claim that the store
wins on disagreement. -/
theorem c3_counterexample :
    fetchKeys (sendMessage uiHello ⟨some "WINKEY", some "STOREKEY"⟩ noCred
        (FetchOutcome.response 200 (some ⟨some [], none⟩))).events = ["WINKEY"]
    ∧ ("WINKEY" : String) ≠ "STOREKEY" := by decide

/-- Claim C3 (amended): submit reads the in-memory cached credential first and
falls back to the persistent store only when the cache is absent or empty, so
whenever both are set and disagree the cached value is the one used for the
network call. -/
theorem c3_amended_cache_preferred (a b : String) (cc : CredState)
    (f : FetchOutcome) (ha : a ≠ "") :
    readKey ⟨some a, some b⟩ = some a
    ∧ fetchKeys (sendMessage uiHello ⟨some a, some b⟩ cc f).events = [a] := by
  have hk : readKey ⟨some a, some b⟩ = some a := by
    simp [readKey, truthyStr, ha]
  refine ⟨hk, ?_⟩
  rw [sendMessage_eq_of_key uiHello _ cc f a rfl (by decide) hk]
  have hh := fetchKeys_handler f cc
  simp only [fetchKeys] at hh
  simp [fetchKeys, hh]

/-- Claim C3, amended-theorem witness with disagreeing cache and store. -/
theorem c3_amended_witness :
    readKey ⟨some "WINKEY", some "STOREKEY"⟩ = some "WINKEY"
    ∧ fetchKeys (sendMessage uiHello ⟨some "WINKEY", some "STOREKEY"⟩ noCred
        (FetchOutcome.response 200 (some ⟨some [], none⟩))).events = ["WINKEY"] :=
  c3_amended_cache_preferred "WINKEY" "STOREKEY" noCred
    (FetchOutcome.response 200 (some ⟨some [], none⟩)) (by decide)

/-- Claim C4: for every valid non-empty input with no credential configured,
no network call is issued, exactly one assistant message — the fixed
instructional text — is rendered, the placeholder is removed, and the Input
Gate is unlocked when the Turn terminates. -/
theorem c4_missing_credential_behavior (ui : UIState) (cred cc : CredState)
    (f : FetchOutcome)
    (hgate : ui.sendDisabled = false) (hmsg : jsTrim ui.inputValue ≠ "")
    (hkey : readKey cred = none) :
    fetchKeys (sendMessage ui cred cc f).events = []
    ∧ aiMessages (sendMessage ui cred cc f).events = [missingKeyMsg]
    ∧ Ev.placeholderRemoved ∈ (sendMessage ui cred cc f).events
    ∧ (sendMessage ui cred cc f).ui.sendDisabled = false
    ∧ (sendMessage ui cred cc f).ui.inputDisabled = false := by
  rw [sendMessage_eq_of_nokey ui cred cc f hgate hmsg hkey]
  refine ⟨?_, ?_, ?_, rfl, rfl⟩
  · simp [fetchKeys]
  · simp [aiMessages]
  · simp

/-- Claim C4, witness on the concrete input "Hello" with no credential. -/
theorem c4_missing_credential_witness :
    fetchKeys (sendMessage uiHello noCred noCred
        (FetchOutcome.response 200 none)).events = []
    ∧ aiMessages (sendMessage uiHello noCred noCred
        (FetchOutcome.response 200 none)).events = [missingKeyMsg]
    ∧ Ev.placeholderRemoved ∈ (sendMessage uiHello noCred noCred
        (FetchOutcome.response 200 none)).events
    ∧ (sendMessage uiHello noCred noCred
        (FetchOutcome.response 200 none)).ui.sendDisabled = false
    ∧ (sendMessage uiHello noCred noCred
        (FetchOutcome.response 200 none)).ui.inputDisabled = false :=
  c4_missing_credential_behavior uiHello noCred noCred
    (FetchOutcome.response 200 none) rfl (by decide) rfl

/-- Claim C5: an abort of the network call (the 15000 ms timer firing is the
sole abort source) is distinguished by the AbortError name, and the rendered
message uses the timeout wording exactly then and the generic wording for
every other failure, the two wordings being distinct; the credential hint is
appended exactly when no credential is configured at failure time. -/
theorem c5_timeout_distinct_and_hint (cc : CredState) (name emsg : String)
    (status : Nat) :
    aiMessages (sendMessage uiHello (credWin "k") cc
        (FetchOutcome.networkError name emsg)).events
      = [if name = "AbortError" then timeoutMsgBase ++ credHint cc
         else genericErrMsgBase ++ credHint cc]
    ∧ aiMessages (sendMessage uiHello (credWin "k") cc
        (FetchOutcome.response status none)).events
      = [genericErrMsgBase ++ credHint cc]
    ∧ timeoutMsgBase ≠ genericErrMsgBase
    ∧ (credHint cc = "" ↔ (readKey cc).isSome = true) := by
  refine ⟨?_, ?_, by decide, ?_⟩
  · rw [sendMessage_eq_of_key uiHello (credWin "k") cc _ "k" rfl (by decide) rfl]
    simp [aiMessages, fetchHandlerEvents, catchEvents]
  · rw [sendMessage_eq_of_key uiHello (credWin "k") cc _ "k" rfl (by decide) rfl]
    simp [aiMessages, fetchHandlerEvents, catchEvents]
  · cases hs : (readKey cc).isSome
    · simp [credHint, hs, tipText]
    · simp [credHint, hs]

/-- Claim C6: on every outcome, the placeholder is added once, removed exactly
once, and the removal precedes the rendering of the single final assistant
message — so the placeholder never remains visible after finalization. -/
theorem c6_placeholder_once_before_final (ui : UIState) (cred cc : CredState)
    (f : FetchOutcome)
    (hgate : ui.sendDisabled = false) (hmsg : jsTrim ui.inputValue ≠ "") :
    ∃ t, phAndAi (sendMessage ui cred cc f).events
      = [Ev.placeholderAdded, Ev.placeholderRemoved, Ev.aiMsg t] := by
  cases hk : readKey cred with
  | none =>
      refine ⟨missingKeyMsg, ?_⟩
      rw [sendMessage_eq_of_nokey ui cred cc f hgate hmsg hk]
      simp [phAndAi]
  | some k =>
      obtain ⟨t, ht⟩ := phAndAi_handler f cc
      refine ⟨t, ?_⟩
      rw [sendMessage_eq_of_key ui cred cc f k hgate hmsg hk]
      simp only [phAndAi] at ht
      simp [phAndAi, ht]

/-- Claim C6, witness on a concrete timed-out run. -/
theorem c6_placeholder_witness :
    ∃ t, phAndAi (sendMessage uiHello (credWin "k") (credWin "k")
        (FetchOutcome.networkError "AbortError" "signal is aborted")).events
      = [Ev.placeholderAdded, Ev.placeholderRemoved, Ev.aiMsg t] :=
  c6_placeholder_once_before_final uiHello (credWin "k") (credWin "k")
    (FetchOutcome.networkError "AbortError" "signal is aborted")
    rfl (by decide)

/-- Claim C7: after every Turn — success, error, timeout, or missing
credential — the entry field and the send button are re-enabled and focus is
restored. -/
theorem c7_gate_unlocked_after (ui : UIState) (cred cc : CredState)
    (f : FetchOutcome)
    (hgate : ui.sendDisabled = false) (hmsg : jsTrim ui.inputValue ≠ "") :
    (sendMessage ui cred cc f).ui.inputDisabled = false
    ∧ (sendMessage ui cred cc f).ui.sendDisabled = false
    ∧ Ev.focus ∈ (sendMessage ui cred cc f).events := by
  cases hk : readKey cred with
  | none =>
      rw [sendMessage_eq_of_nokey ui cred cc f hgate hmsg hk]
      exact ⟨rfl, rfl, by simp⟩
  | some k =>
      rw [sendMessage_eq_of_key ui cred cc f k hgate hmsg hk]
      exact ⟨rfl, rfl, by simp⟩

/-- Claim C7, witness on a concrete failing run. -/
theorem c7_gate_unlocked_witness :
    (sendMessage uiHello (credWin "k") (credWin "k")
        (FetchOutcome.networkError "TypeError" "failed to fetch")).ui.inputDisabled = false
    ∧ (sendMessage uiHello (credWin "k") (credWin "k")
        (FetchOutcome.networkError "TypeError" "failed to fetch")).ui.sendDisabled = false
    ∧ Ev.focus ∈ (sendMessage uiHello (credWin "k") (credWin "k")
        (FetchOutcome.networkError "TypeError" "failed to fetch")).events :=
  c7_gate_unlocked_after uiHello (credWin "k") (credWin "k")
    (FetchOutcome.networkError "TypeError" "failed to fetch") rfl (by decide)

/-- Claim C8: on every HTTP-success response with a parseable body, the
rendered assistant text is the trimmed concatenation of the text fragments of
the first candidate content parts (the source extraction agrees with the spec
wording), the fixed empty-reply message standing in when extraction is empty;
no error is logged, so the Turn is a success. -/
theorem c8_success_reply_extraction (status : Nat) (data : ApiBody)
    (cc : CredState) (hok : responseOk status = true) :
    aiMessages (sendMessage uiHello (credWin "k") cc
        (FetchOutcome.response status (some data))).events
      = [if extractReply data = "" then emptyReplyMsg else extractReply data]
    ∧ extractReply data = specExtract data
    ∧ loggedErrors (sendMessage uiHello (credWin "k") cc
        (FetchOutcome.response status (some data))).events = [] := by
  refine ⟨?_, ?_, ?_⟩
  · rw [sendMessage_eq_of_key uiHello (credWin "k") cc _ "k" rfl (by decide) rfl]
    simp [aiMessages, fetchHandlerEvents, hok, successEvents]
  · rcases data with ⟨cands, err⟩
    cases cands with
    | none => rfl
    | some l =>
        cases l with
        | nil => rfl
        | cons cand rest =>
            rcases cand with ⟨content⟩
            cases content with
            | none => rfl
            | some c =>
                rcases c with ⟨parts⟩
                cases parts with
                | none => rfl
                | some ps => rfl
  · rw [sendMessage_eq_of_key uiHello (credWin "k") cc _ "k" rfl (by decide) rfl]
    simp [loggedErrors, fetchHandlerEvents, hok, successEvents]

/-- Claim C8, witness on the empty-candidates scenario: HTTP 200 with
`candidates` equal to the empty array renders the fixed empty-reply message
with no error logged. -/
theorem c8_success_reply_witness :
    aiMessages (sendMessage uiHello (credWin "k") (credWin "k")
        (FetchOutcome.response 200 (some ⟨some [], none⟩))).events
      = [if extractReply ⟨some [], none⟩ = "" then emptyReplyMsg
         else extractReply ⟨some [], none⟩]
    ∧ extractReply ⟨some [], none⟩ = specExtract ⟨some [], none⟩
    ∧ loggedErrors (sendMessage uiHello (credWin "k") (credWin "k")
        (FetchOutcome.response 200 (some ⟨some [], none⟩))).events = [] :=
  c8_success_reply_extraction 200 ⟨some [], none⟩ (credWin "k") (by decide)

/-- Claim C9: calling submit while the Input Gate is locked, or with an input
that trims to the empty string, is a silent no-op: no effect is emitted and
the UI state is unchanged. -/
theorem c9_noop_when_locked_or_blank (ui : UIState) (cred cc : CredState)
    (f : FetchOutcome)
    (h : ui.sendDisabled = true ∨ jsTrim ui.inputValue = "") :
    sendMessage ui cred cc f = ⟨[], ui⟩ := by
  rcases h with h | h
  · simp [sendMessage, h]
  · cases hb : ui.sendDisabled
    · simp [sendMessage, hb, h]
    · simp [sendMessage, hb]

/-- Claim C9, witness on a whitespace-only input with the gate unlocked. -/
theorem c9_noop_witness :
    sendMessage ⟨"   ", false, false⟩ (credWin "k") (credWin "k")
        (FetchOutcome.response 200 (some ⟨some [], none⟩))
      = ⟨[], ⟨"   ", false, false⟩⟩ :=
  c9_noop_when_locked_or_blank ⟨"   ", false, false⟩ (credWin "k") (credWin "k")
    (FetchOutcome.response 200 (some ⟨some [], none⟩)) (Or.inr (by decide))

/-- Claim C10: activating Save while the key input still shows the masked
placeholder value leaves both the persisted credential entry and the
in-memory credential unchanged. -/
theorem c10_masked_resave_noop (s : SaveState)
    (hm : s.keyUI.dataMasked = true)
    (hv : jsTrim s.keyUI.tokenValue = "********") :
    (saveTokenClick s).stored = s.stored
    ∧ (saveTokenClick s).windowKey = s.windowKey := by
  unfold saveTokenClick
  rw [hv]
  rw [if_neg (by decide : ¬("********" : String) = "")]
  rw [if_pos ⟨hm, rfl⟩]
  exact ⟨rfl, rfl⟩

/-- Claim C10, witness on a concrete saved-credential state. -/
theorem c10_masked_resave_witness :
    (saveTokenClick ⟨⟨"********", true, "Save Key"⟩, some "s3cr3t", some "s3cr3t"⟩).stored
      = (⟨⟨"********", true, "Save Key"⟩, some "s3cr3t", some "s3cr3t"⟩ : SaveState).stored
    ∧ (saveTokenClick ⟨⟨"********", true, "Save Key"⟩, some "s3cr3t", some "s3cr3t"⟩).windowKey
      = (⟨⟨"********", true, "Save Key"⟩, some "s3cr3t", some "s3cr3t"⟩ : SaveState).windowKey :=
  c10_masked_resave_noop ⟨⟨"********", true, "Save Key"⟩, some "s3cr3t", some "s3cr3t"⟩
    rfl (by decide)

end ChatbotAI
